import Mathlib

/-
  Verification of the MicroShop browser-client core (WFP2 repository).

  The development shallowly embeds the four verified components of the
  frontend source:
    - the cart merge and local add-to-cart paths
      (src/frontend/src/pages/Products.jsx),
    - the payment request classifier createPayment (src/frontend/src/api.js),
    - the session guard: parseJwt / isTokenValid and the periodic liveness
      check (src/frontend/src/App.jsx, src/frontend/src/utils/auth.js),
    - the per-order poll loop and poll-handle lifecycle of the Cart view
      (src/frontend/src/pages/Products.jsx).

  Browser builtins that the code calls (JSON.parse, atob) are modelled as
  explicit function parameters returning Option, with none standing for a
  raised exception; everything else is translated directly from the source.
-/

set_option maxHeartbeats 1000000

namespace WFP2

/-- A cart line item as built by the frontend: the object shape
pushed in Products.jsx and mapped from the cart-service response in
Cart.load (product_id, quantity, name, price).  Prices are modelled as
integers; their numeric value is inert in every verified algorithm. -/
structure CartItem where
  product_id : Nat
  quantity : Nat
  name : String
  price : Int
deriving Repr, DecidableEq

/-- Cart merge of Cart.load (src/frontend/src/pages/Products.jsx lines
87-93): the server items are copied first ("const merged = [...serverItems]"),
then every local item whose product_id is not in the Set of server ids is
pushed in order. -/
def mergeCart (serverItems localItems : List CartItem) : List CartItem :=
  let serverIds := serverItems.map (fun it => it.product_id)
  localItems.foldl
    (fun merged li => if serverIds.contains li.product_id then merged else merged ++ [li])
    serverItems

/-- A catalog product as rendered by the Products page (fields id, name,
price read by the add-to-cart click handler). -/
structure Product where
  id : Nat
  name : String
  price : Int
deriving Repr, DecidableEq

/-- Local (offline) add-to-cart of Products.jsx lines 49-56: both the
no-token path and the server-failure fallback read the stored cart and
push a fresh entry with quantity 1, never coalescing with an existing
entry of the same product. -/
def addToLocalCart (existing : List CartItem) (p : Product) : List CartItem :=
  existing ++ [{ product_id := p.id, quantity := 1, name := p.name, price := p.price }]

/-- The push loop of the merge is an append of the filtered local items. -/
theorem mergeCart_foldl_eq (ids : List Nat) :
    ∀ (l acc : List CartItem),
      l.foldl (fun merged li =>
          if ids.contains li.product_id then merged else merged ++ [li]) acc
        = acc ++ l.filter (fun li => !(ids.contains li.product_id))
  | [], acc => by simp
  | li :: rest, acc => by
    by_cases h : li.product_id ∈ ids
    · have hc := mergeCart_foldl_eq ids rest acc
      simp [h] at hc ⊢
      exact hc
    · have hc := mergeCart_foldl_eq ids rest (acc ++ [li])
      simp [h] at hc ⊢
      rw [hc]

/-- Characterization of the merge: server items verbatim, followed by the
local items whose product_id is absent from the server ids. -/
theorem mergeCart_eq_append_filter (s l : List CartItem) :
    mergeCart s l
      = s ++ l.filter (fun li => !((s.map (fun it => it.product_id)).contains li.product_id)) := by
  unfold mergeCart
  exact mergeCart_foldl_eq _ l s

theorem mem_map_product_id_of_contains {ids : List Nat} {a : Nat}
    (h : ids.contains a = true) : a ∈ ids := by
  simpa using h

/-- C1 (counterexample): the claim quantifies over every pair of input
lists, but when serverItems itself repeats a product_id the merge copies
both server rows, so the output does not contain exactly one entry for
that product_id.  Here product_id 1 appears in serverItems and the merge
output carries two entries for it. -/
theorem C1_counterexample :
    (1 ∈ (([⟨1, 2, "a", 5⟩, ⟨1, 3, "b", 6⟩] : List CartItem).map (fun it => it.product_id)))
    ∧ (mergeCart [⟨1, 2, "a", 5⟩, ⟨1, 3, "b", 6⟩] []).countP
        (fun it => it.product_id == 1) = 2 := by
  constructor
  · decide
  · decide

/-- C1 (amended): whenever serverItems contains at most one entry per
product_id, the merge of Cart.load returns exactly the server items first,
in their given order and carrying the server quantity/price/name, followed
by exactly those local items whose product_id does not appear in
serverItems, in their given order; each product_id appearing in
serverItems then has exactly one entry in the output. -/
theorem C1_merge_characterization (s l : List CartItem)
    (hs : (s.map (fun it => it.product_id)).Nodup) :
    mergeCart s l
      = s ++ l.filter (fun li => !((s.map (fun it => it.product_id)).contains li.product_id))
    ∧ ∀ pid, pid ∈ s.map (fun it => it.product_id) →
        (mergeCart s l).countP (fun it => it.product_id == pid) = 1 := by
  refine ⟨mergeCart_eq_append_filter s l, ?_⟩
  intro pid hpid
  rw [mergeCart_eq_append_filter s l, List.countP_append]
  have hcs : s.countP (fun it => it.product_id == pid) = 1 := by
    have hm : (s.map (fun it => it.product_id)).countP (fun x => x == pid) = 1 := by
      have := List.count_eq_one_of_mem hs hpid
      simpa [List.count] using this
    rw [List.countP_map] at hm
    simpa [Function.comp] using hm
  have hcf : (l.filter (fun li =>
      !((s.map (fun it => it.product_id)).contains li.product_id))).countP
      (fun it => it.product_id == pid) = 0 := by
    rw [List.countP_eq_zero]
    intro a ha
    rcases List.mem_filter.mp ha with ⟨_, hkeep⟩
    intro hpe
    have : a.product_id = pid := by simpa using hpe
    rw [this] at hkeep
    have hmem : ((s.map (fun it => it.product_id)).contains pid) = true := by
      simpa [List.contains] using List.elem_eq_true_of_mem hpid
    rw [hmem] at hkeep
    simp at hkeep
  omega

/-- C1 (witness): the merge scenario from the specification, server cart
with product 1 quantity 2 against a local cart with products 1 and 2. -/
theorem C1_witness :
    (([⟨1, 2, "a", 10⟩] : List CartItem).map (fun it => it.product_id)).Nodup
    ∧ (mergeCart [⟨1, 2, "a", 10⟩] [⟨1, 5, "a", 10⟩, ⟨2, 1, "b", 7⟩]
        = [⟨1, 2, "a", 10⟩] ++ ([⟨1, 5, "a", 10⟩, ⟨2, 1, "b", 7⟩] : List CartItem).filter
            (fun li => !((([⟨1, 2, "a", 10⟩] : List CartItem).map
              (fun it => it.product_id)).contains li.product_id))
      ∧ ∀ pid, pid ∈ ([⟨1, 2, "a", 10⟩] : List CartItem).map (fun it => it.product_id) →
          (mergeCart [⟨1, 2, "a", 10⟩] [⟨1, 5, "a", 10⟩, ⟨2, 1, "b", 7⟩]).countP
            (fun it => it.product_id == pid) = 1) :=
  ⟨by decide, C1_merge_characterization [⟨1, 2, "a", 10⟩] [⟨1, 5, "a", 10⟩, ⟨2, 1, "b", 7⟩]
    (by decide)⟩

/-- C2 (counterexample): the claim asserts the merged cart holds at most
one entry per product_id for every input pair, explicitly including local
lists with repeated product_ids; but local duplicates absent from the
server are all appended, so merging an empty server cart with a local cart
holding product 2 twice yields two entries for product_id 2. -/
theorem C2_counterexample :
    ¬ (∀ pid, (mergeCart [] [⟨2, 1, "x", 1⟩, ⟨2, 1, "x", 1⟩]).countP
        (fun it => it.product_id == pid) ≤ 1) := by
  intro h
  exact absurd (h 2) (by decide)

/-- C2 (amended): provided serverItems and localItems each contain at most
one entry per product_id, the merged cart of Cart.load contains at most
one entry per product_id (its list of product_ids has no duplicate);
server provenance wins because server rows are kept and conflicting local
rows are dropped. -/
theorem C2_merge_nodup (s l : List CartItem)
    (hs : (s.map (fun it => it.product_id)).Nodup)
    (hl : (l.map (fun it => it.product_id)).Nodup) :
    ((mergeCart s l).map (fun it => it.product_id)).Nodup := by
  rw [mergeCart_eq_append_filter s l, List.map_append, List.nodup_append]
  refine ⟨hs, ?_, ?_⟩
  · exact hl.sublist ((List.filter_sublist l).map (fun it => it.product_id))
  · intro a ha hb
    rcases List.mem_map.mp hb with ⟨li, hli, hfa⟩
    rcases List.mem_filter.mp hli with ⟨_, hkeep⟩
    have hcont : ((s.map (fun it => it.product_id)).contains a) = true := by
      simpa [List.contains] using List.elem_eq_true_of_mem ha
    rw [← hfa] at hcont
    rw [hcont] at hkeep
    simp at hkeep

/-- C2 (witness): duplicate-free server and local carts with one
overlapping product merge into a duplicate-free cart. -/
theorem C2_witness :
    (([⟨1, 2, "a", 10⟩] : List CartItem).map (fun it => it.product_id)).Nodup
    ∧ (([⟨1, 5, "a", 10⟩, ⟨2, 1, "b", 7⟩] : List CartItem).map (fun it => it.product_id)).Nodup
    ∧ ((mergeCart [⟨1, 2, "a", 10⟩] [⟨1, 5, "a", 10⟩, ⟨2, 1, "b", 7⟩]).map
        (fun it => it.product_id)).Nodup :=
  ⟨by decide, by decide,
    C2_merge_nodup [⟨1, 2, "a", 10⟩] [⟨1, 5, "a", 10⟩, ⟨2, 1, "b", 7⟩] (by decide) (by decide)⟩

/-- C10: n repeated local adds of the same product append n distinct
entries, each with quantity 1 and the product's id, name and price; the
local store ends with n entries carrying that product_id on top of however
many it already had, never one entry with accumulated quantity. -/
theorem C10_local_add_appends (p : Product) :
    ∀ (n : Nat) (init : List CartItem),
      Nat.iterate (fun c => addToLocalCart c p) n init
        = init ++ List.replicate n
            { product_id := p.id, quantity := 1, name := p.name, price := p.price }
      ∧ (Nat.iterate (fun c => addToLocalCart c p) n init).countP
            (fun it => it.product_id == p.id)
          = init.countP (fun it => it.product_id == p.id) + n
  | 0, init => by simp
  | n + 1, init => by
    have hstep := (C10_local_add_appends p n (addToLocalCart init p)).1
    have heq : Nat.iterate (fun c => addToLocalCart c p) (n + 1) init
        = init ++ List.replicate (n + 1)
            { product_id := p.id, quantity := 1, name := p.name, price := p.price } := by
      rw [Function.iterate_succ_apply, hstep]
      simp [addToLocalCart, List.replicate_succ]
    refine ⟨heq, ?_⟩
    rw [heq, List.countP_append]
    have : (List.replicate (n + 1)
        ({ product_id := p.id, quantity := 1, name := p.name, price := p.price } : CartItem)).countP
          (fun it => it.product_id == p.id) = n + 1 := by
      simp [List.countP_eq_length_filter]
    omega

/-- A JSON value as produced by the browser builtin JSON.parse.  Numbers
are modelled as integers; only their zero test matters to the verified
code (JavaScript truthiness). -/
inductive Json where
  | null : Json
  | bool : Bool → Json
  | num : Int → Json
  | str : String → Json
  | arr : List Json → Json
  | obj : List (String × Json) → Json
deriving Repr

/-- JavaScript truthiness of a parsed JSON value, as tested by the
expression parsed-or-else-pending in createPayment line 95: null, false,
zero and the empty string are falsy, every other value is truthy. -/
def jsTruthy : Json → Bool
  | Json.null => false
  | Json.bool b => b
  | Json.num n => n != 0
  | Json.str s => s != ""
  | Json.arr _ => true
  | Json.obj _ => true

/-- First key of a JSON object, used to discriminate concrete objects. -/
def Json.firstKey : Json → Option String
  | .obj ((k, _) :: _) => some k
  | _ => none

/-- The synthesized pending body of createPayment line 95: the object
literal with the single field result set to the string PENDING. -/
def pendingBody : Json := Json.obj [("result", Json.str "PENDING")]

/-- Defensive body handling of createPayment (src/unnamed/part_001 lines
91-93): an empty body text is never parsed (parsed stays null); otherwise
JSON.parse is attempted and a parse failure is caught, wrapping the raw
text under the key raw.  The browser builtin JSON.parse is the parameter
parse, with none standing for a raised SyntaxError. -/
def paymentParsedBody (parse : String → Option Json) (bodyText : String) : Json :=
  if bodyText = "" then Json.null
  else
    match parse bodyText with
    | some v => v
    | none => Json.obj [("raw", Json.str bodyText)]

/-- createPayment response classification (src/unnamed/part_001 lines
90-98): status 200 returns the parsed body; status 202 returns the parsed
body if truthy, else the synthesized pending body; every other status
throws an Error whose message carries the numeric status code. -/
def createPayment (parse : String → Option Json) (status : Nat) (bodyText : String) :
    Except String Json :=
  let parsed := paymentParsedBody parse bodyText
  if status = 200 then Except.ok parsed
  else if status = 202 then
    Except.ok (if jsTruthy parsed then parsed else pendingBody)
  else Except.error ("Payment request failed: " ++ toString status)

/-- C3 (counterexample): the claim requires the raw response body text to
be recoverable from the raised error, but the thrown Error message carries
only the status code (the body text is only logged): two failing responses
with status 500 and different bodies raise identical errors. -/
theorem C3_counterexample :
    createPayment (fun _ => none) 500 "boom" = createPayment (fun _ => none) 500 "zap"
    ∧ ("boom" : String) ≠ "zap"
    ∧ createPayment (fun _ => none) 500 "boom" = Except.error "Payment request failed: 500" :=
  ⟨rfl, by decide, rfl⟩

/-- C3 (amended): a payment response with status 202 never raises; every
status outside 200 and 202 always raises, with the numeric status code
recoverable from the raised error (the error message is exactly the fixed
prefix followed by the status code); the raw body text is not carried in
the raised error. -/
theorem C3_payment_status_contract (parse : String → Option Json) (status : Nat)
    (bodyText : String) (h200 : status ≠ 200) (h202 : status ≠ 202) :
    createPayment parse status bodyText
      = Except.error ("Payment request failed: " ++ toString status)
    ∧ ∃ v, createPayment parse 202 bodyText = Except.ok v := by
  constructor
  · simp [createPayment, h200, h202]
  · refine ⟨if jsTruthy (paymentParsedBody parse bodyText) then
        paymentParsedBody parse bodyText else pendingBody, ?_⟩
    simp [createPayment]

/-- C3 (witness): a 404 response with body text raises the status-carrying
error, while a 202 response with the same body succeeds. -/
theorem C3_witness :
    (404 : Nat) ≠ 200 ∧ (404 : Nat) ≠ 202
    ∧ (createPayment (fun _ => none) 404 "denied"
        = Except.error ("Payment request failed: " ++ toString 404)
      ∧ ∃ v, createPayment (fun _ => none) 202 "denied" = Except.ok v) :=
  ⟨by decide, by decide,
    C3_payment_status_contract (fun _ => none) 404 "denied" (by decide) (by decide)⟩

/-- C4 (counterexample): at status 202 with an empty body text (which the
claim classifies as failing JSON parse), createPayment returns the
synthesized object keyed result — neither the claim's object keyed
outcome nor a wrapped raw body. -/
theorem C4_counterexample :
    createPayment (fun _ => none) 202 "" = Except.ok pendingBody
    ∧ pendingBody ≠ Json.obj [("outcome", Json.str "PENDING")]
    ∧ pendingBody ≠ Json.obj [("raw", Json.str "")] := by
  refine ⟨rfl, ?_, ?_⟩
  · intro h
    have h2 := congrArg Json.firstKey h
    simp [Json.firstKey, pendingBody] at h2
  · intro h
    have h2 := congrArg Json.firstKey h
    simp [Json.firstKey, pendingBody] at h2

/-- C4 (amended): at status 202, when the body text is nonempty and parses
to a truthy JSON value, that parsed value is returned; when a nonempty
body fails JSON parse, the raw text is wrapped in an object keyed raw and
returned rather than failing the call; when the body is empty, or parses
to a falsy JSON value (null, false, zero, empty string), the synthesized
object keyed result with value PENDING is returned. -/
theorem C4_payment_202_body (parse : String → Option Json) (bodyText : String) (v : Json)
    (hne : bodyText ≠ "") :
    (parse bodyText = some v → jsTruthy v = true →
        createPayment parse 202 bodyText = Except.ok v)
    ∧ (parse bodyText = none →
        createPayment parse 202 bodyText = Except.ok (Json.obj [("raw", Json.str bodyText)]))
    ∧ (parse bodyText = some v → jsTruthy v = false →
        createPayment parse 202 bodyText = Except.ok pendingBody)
    ∧ createPayment parse 202 "" = Except.ok pendingBody := by
  refine ⟨?_, ?_, ?_, ?_⟩
  · intro hp ht
    simp [createPayment, paymentParsedBody, hne, hp, ht]
  · intro hp
    simp [createPayment, paymentParsedBody, hne, hp, jsTruthy]
  · intro hp ht
    simp [createPayment, paymentParsedBody, hne, hp, ht]
  · simp [createPayment, paymentParsedBody, jsTruthy]

/-- A concrete stand-in for the JSON.parse parameter used to evaluate the
payment contract on explicit inputs: parses one known body text. -/
def paymentParseStub : String → Option Json := fun s =>
  if s = "body-ok" then some (Json.num 7) else none

/-- C4 (witness): concrete 202 responses — a parseable truthy body is
returned as parsed, an unparseable body is wrapped, an empty body yields
the synthesized pending object. -/
theorem C4_witness :
    ("body-ok" : String) ≠ ""
    ∧ ((paymentParseStub "body-ok" = some (Json.num 7) → jsTruthy (Json.num 7) = true →
          createPayment paymentParseStub 202 "body-ok" = Except.ok (Json.num 7))
      ∧ (paymentParseStub "body-ok" = none →
          createPayment paymentParseStub 202 "body-ok"
            = Except.ok (Json.obj [("raw", Json.str "body-ok")]))
      ∧ (paymentParseStub "body-ok" = some (Json.num 7) → jsTruthy (Json.num 7) = false →
          createPayment paymentParseStub 202 "body-ok" = Except.ok pendingBody)
      ∧ createPayment paymentParseStub 202 "" = Except.ok pendingBody) :=
  ⟨by decide, C4_payment_202_body paymentParseStub "body-ok" (Json.num 7) (by decide)⟩

/-- JWT claims as read by the session guard: the exp field (Unix seconds)
and the role field of the decoded payload object; an absent field is
none. -/
structure JwtClaims where
  exp : Option Int
  role : Option String
deriving Repr, DecidableEq

/-- Splitting of a character list at every occurrence of a separator,
mirroring the JavaScript split on a dot used by parseJwt. -/
def splitOnChar (c : Char) : List Char → List (List Char)
  | [] => [[]]
  | x :: xs =>
    let r := splitOnChar c xs
    if x = c then [] :: r
    else
      match r with
      | [] => [[x]]
      | y :: ys => (x :: y) :: ys

/-- parseJwt (src/frontend/src/utils/auth.js lines 112-122): splits the
token at dots, requires exactly three segments, then decodes the middle
segment.  The base64 decode plus JSON.parse of the payload are browser
builtins modelled by the decodePayload parameter; none stands for any
failure in that chain, absorbed by the surrounding try (fails soft, never
throws). -/
def parseJwt (decodePayload : String → Option JwtClaims) (token : String) : Option JwtClaims :=
  let parts := splitOnChar '.' token.toList
  if parts.length ≠ 3 then none
  else decodePayload (String.mk ((parts[1]?).getD []))

/-- isTokenValid (src/frontend/src/utils/auth.js lines 124-130): false on
a null or empty token, false when parseJwt yields no claims or the exp
claim is absent (or zero, falsy in JavaScript), else true exactly when now
is strictly before exp scaled to milliseconds. -/
def isTokenValid (decodePayload : String → Option JwtClaims) (now : Int)
    (token : Option String) : Bool :=
  match token with
  | none => false
  | some t =>
    if t = "" then false
    else
      match parseJwt decodePayload t with
      | none => false
      | some claims =>
        match claims.exp with
        | none => false
        | some e => if e = 0 then false else decide (now < e * 1000)

/-- clearAuth (src/frontend/src/utils/auth.js lines 132-134): removes the
stored credential. -/
def clearAuth : Option String → Option String := fun _ => none

/-- One tick of the periodic liveness check (src/frontend/src/App.jsx
lines 42-48): the stored token is re-read; a missing or empty token makes
the tick return without any action; a present token failing isTokenValid
triggers logout.  The result is true exactly when logout() is invoked
(logout clears the credential and redirects to the login view, App.jsx
lines 11-20). -/
def livenessTick (decodePayload : String → Option JwtClaims) (now : Int)
    (stored : Option String) : Bool :=
  match stored with
  | none => false
  | some t =>
    if t = "" then false
    else !(isTokenValid decodePayload now (some t))

/-- Stored credential after a liveness tick: cleared by clearAuth when the
tick invoked logout, untouched otherwise. -/
def livenessTickStored (decodePayload : String → Option JwtClaims) (now : Int)
    (stored : Option String) : Option String :=
  if livenessTick decodePayload now stored then clearAuth stored else stored

/-- C5 (counterexample): the claim says a missing token at tick time
triggers sign-out, but the tick guard returns immediately when the stored
token is absent, invoking no logout. -/
theorem C5_counterexample : livenessTick (fun _ => none) 0 none = false := rfl

/-- C5 (amended): a tick of the periodic liveness check forces sign-out
(invoking logout, which clears the credential) whenever the stored token
is present, nonempty and has become invalid; a missing token at tick time
is a no-op — the tick performs no sign-out. -/
theorem C5_liveness_tick (decodePayload : String → Option JwtClaims) (now : Int)
    (t : String) (hne : t ≠ "")
    (hinv : isTokenValid decodePayload now (some t) = false) :
    livenessTick decodePayload now (some t) = true
    ∧ livenessTickStored decodePayload now (some t) = none
    ∧ livenessTick decodePayload now none = false := by
  have h1 : livenessTick decodePayload now (some t) = true := by
    simp [livenessTick, hne, hinv]
  exact ⟨h1, by simp [livenessTickStored, h1, clearAuth], rfl⟩

/-- C5 (witness): a stored single-segment (hence undecodable, invalid)
token makes the tick sign out and clears the credential, while an absent
token leaves the tick inert. -/
theorem C5_witness :
    ("expired-token" : String) ≠ ""
    ∧ isTokenValid (fun _ => none) 0 (some "expired-token") = false
    ∧ (livenessTick (fun _ => none) 0 (some "expired-token") = true
      ∧ livenessTickStored (fun _ => none) 0 (some "expired-token") = none
      ∧ livenessTick (fun _ => none) 0 none = false) :=
  ⟨by decide, by decide,
    C5_liveness_tick (fun _ => none) 0 "expired-token" (by decide) (by decide)⟩

/-- C6: isTokenValid returns false for a null or empty token, false when
decoding yields no claims or no exp claim, false when exp in milliseconds
is at or before the current time, and true exactly when the current time
(nonnegative, as Date.now() always is) lies strictly before exp in
milliseconds; being a total function it never throws on malformed
tokens. -/
theorem C6_token_validity (decodePayload : String → Option JwtClaims) (now : Int)
    (token : Option String) (hnow : 0 ≤ now) :
    (token = none → isTokenValid decodePayload now token = false)
    ∧ (token = some "" → isTokenValid decodePayload now token = false)
    ∧ (∀ t, token = some t → parseJwt decodePayload t = none →
        isTokenValid decodePayload now token = false)
    ∧ (∀ t c, token = some t → parseJwt decodePayload t = some c → c.exp = none →
        isTokenValid decodePayload now token = false)
    ∧ (∀ t c e, token = some t → parseJwt decodePayload t = some c → c.exp = some e →
        e * 1000 ≤ now → isTokenValid decodePayload now token = false)
    ∧ (isTokenValid decodePayload now token = true ↔
        ∃ t c e, token = some t ∧ t ≠ "" ∧ parseJwt decodePayload t = some c
          ∧ c.exp = some e ∧ now < e * 1000) := by
  refine ⟨?_, ?_, ?_, ?_, ?_, ?_⟩
  · rintro rfl; rfl
  · rintro rfl; rfl
  · rintro t rfl hp
    simp [isTokenValid, hp]
  · rintro t c rfl hp he
    simp [isTokenValid, hp, he]
  · rintro t c e rfl hp he hle
    have hnl : ¬ (now < e * 1000) := not_lt.mpr hle
    simp [isTokenValid, hp, he, hnl]
  · constructor
    · intro h
      rcases token with _ | t
      · simp [isTokenValid] at h
      · by_cases ht : t = ""
        · subst ht; simp [isTokenValid] at h
        · cases hp : parseJwt decodePayload t with
          | none => simp [isTokenValid, ht, hp] at h
          | some c =>
            cases he : c.exp with
            | none => simp [isTokenValid, ht, hp, he] at h
            | some e =>
              by_cases he0 : e = 0
              · subst he0; simp [isTokenValid, ht, hp, he] at h
              · refine ⟨t, c, e, rfl, ht, hp, he, ?_⟩
                simp [isTokenValid, ht, hp, he, he0] at h
                exact h
    · rintro ⟨t, c, e, rfl, ht, hp, he, hlt⟩
      have he0 : e ≠ 0 := by
        intro h0
        rw [h0] at hlt
        simp at hlt
        omega
      simp [isTokenValid, ht, hp, he, he0, hlt]

/-- A concrete stand-in for the payload decode chain (atob plus
JSON.parse), decoding one known payload segment. -/
def jwtDecodeStub : String → Option JwtClaims := fun s =>
  if s = "payload" then some { exp := some 10, role := none } else none

/-- C6 (witness): a three-segment token whose payload decodes to exp 10
is valid at time 5000 milliseconds (strictly before 10000). -/
theorem C6_witness :
    (0 : Int) ≤ 5000
    ∧ isTokenValid jwtDecodeStub 5000 (some "head.payload.sig") = true :=
  ⟨by decide,
    (C6_token_validity jwtDecodeStub 5000 (some "head.payload.sig") (by decide)).2.2.2.2.2.mpr
      ⟨"head.payload.sig", { exp := some 10, role := none }, 10, rfl, by decide, by decide,
        rfl, by decide⟩⟩

/-- Outcome published by Cart.load: the cart shown and the advisory
message, if any was set. -/
structure LoadOutcome where
  cart : List CartItem
  message : Option String
deriving Repr, DecidableEq

/-- The server cart response as observed by Cart.load: either the fetch
rejected (network failure, or a non-OK status turned into a throw by
fetchCartServer), or it resolved; a resolved response carries an items
array or not (a falsy body or items not an array). -/
inductive ServerCartResp where
  | fetchError : ServerCartResp
  | ok : Option (List CartItem) → ServerCartResp
deriving Repr, DecidableEq

/-- The raw local cart text read at Products.jsx line 81: a missing or
empty storage entry falls back to the empty-array literal. -/
def effectiveCartRaw (stored : Option String) : String :=
  match stored with
  | none => "[]"
  | some s => if s = "" then "[]" else s

/-- The non-fatal advisory message set by the catch of Cart.load. -/
def advisoryMsg : String := "Could not load server cart; showing local cart."

/-- Cart.load (src/frontend/src/pages/Products.jsx lines 78-105): parses
the local cart from storage (the unguarded JSON.parse of line 81; a parse
failure escapes the call, modelled as Except.error); with a token it
fetches the server cart — on success with an items array it publishes the
merge, on a response without an items array it publishes the local cart,
and on fetch failure it publishes the local cart together with the
advisory message set in the catch. -/
def cartLoad (parseCart : String → Option (List CartItem)) (stored : Option String)
    (token : Option String) (server : ServerCartResp) : Except Unit LoadOutcome :=
  match parseCart (effectiveCartRaw stored) with
  | none => Except.error ()
  | some localItems =>
    match token with
    | none => Except.ok { cart := localItems, message := none }
    | some t =>
      if t = "" then Except.ok { cart := localItems, message := none }
      else
        match server with
        | ServerCartResp.fetchError =>
            Except.ok { cart := localItems, message := some advisoryMsg }
        | ServerCartResp.ok none => Except.ok { cart := localItems, message := none }
        | ServerCartResp.ok (some serverItems) =>
            Except.ok { cart := mergeCart serverItems localItems, message := none }

/-- A concrete stand-in for the JSON.parse of the stored cart text: parses
the empty-array literal, fails (raises) on unparseable text. -/
def localCartParseStub : String → Option (List CartItem) := fun s =>
  if s = "[]" then some [] else none

/-- C7 (counterexample): the claim quantifies over every state of browser
storage, but the JSON.parse of the stored cart text at line 81 is outside
the try block: with an unparseable stored cart the parse raises and the
error escapes Cart.load, even though the server fetch would have failed
into the advisory fallback. -/
theorem C7_counterexample :
    cartLoad localCartParseStub (some "corrupt cart") (some "tok") ServerCartResp.fetchError
      = Except.error () := rfl

/-- C7 (amended): for every state of browser storage whose stored cart
text parses as JSON, and every server response including fetch failure,
Cart.load never throws; on server cart fetch failure it falls back to
exactly the local cart and sets the non-fatal advisory message. -/
theorem C7_load_fallback (parseCart : String → Option (List CartItem))
    (stored token : Option String) (server : ServerCartResp) (localItems : List CartItem)
    (hp : parseCart (effectiveCartRaw stored) = some localItems) :
    (∃ out, cartLoad parseCart stored token server = Except.ok out)
    ∧ (∀ t, token = some t → t ≠ "" → server = ServerCartResp.fetchError →
        cartLoad parseCart stored token server
          = Except.ok { cart := localItems, message := some advisoryMsg }) := by
  constructor
  · rcases token with _ | t
    · exact ⟨{ cart := localItems, message := none }, by simp [cartLoad, hp]⟩
    · by_cases ht : t = ""
      · subst ht
        exact ⟨{ cart := localItems, message := none }, by simp [cartLoad, hp]⟩
      · rcases server with _ | items
        · exact ⟨{ cart := localItems, message := some advisoryMsg },
            by simp [cartLoad, hp, ht]⟩
        · rcases items with _ | serverItems
          · exact ⟨{ cart := localItems, message := none }, by simp [cartLoad, hp, ht]⟩
          · exact ⟨{ cart := mergeCart serverItems localItems, message := none },
              by simp [cartLoad, hp, ht]⟩
  · rintro t rfl ht rfl
    simp [cartLoad, hp, ht]

/-- C7 (witness): with a well-formed empty stored cart and a failing
server fetch, load returns the local cart with the advisory message. -/
theorem C7_witness :
    localCartParseStub (effectiveCartRaw (some "[]")) = some []
    ∧ ((∃ out, cartLoad localCartParseStub (some "[]") (some "tok") ServerCartResp.fetchError
          = Except.ok out)
      ∧ (∀ t, (some "tok" : Option String) = some t → t ≠ "" →
          ServerCartResp.fetchError = ServerCartResp.fetchError →
          cartLoad localCartParseStub (some "[]") (some "tok") ServerCartResp.fetchError
            = Except.ok { cart := [], message := some advisoryMsg })) :=
  ⟨by decide, C7_load_fallback localCartParseStub (some "[]") (some "tok")
      ServerCartResp.fetchError [] (by decide)⟩

/-- A poll-tick observation of the per-order status poll in
Cart.placeOrder: the fetch rejected, resolved without a usable status
field, or resolved with a status string. -/
inductive TickObs where
  | fetchError : TickObs
  | noStatus : TickObs
  | status : String → TickObs
deriving Repr, DecidableEq

/-- Whether an observation is one of the statuses at which the tick clears
the interval (PAID or PAYMENT_FAILED). -/
def isTerminalObs : TickObs → Bool
  | TickObs.status s => s == "PAID" || s == "PAYMENT_FAILED"
  | _ => false

/-- The status string carried by an observation, if any. -/
def obsPublished : TickObs → Option String
  | TickObs.status s => some s
  | _ => none

/-- The poll state of the Cart view: whether the interval is still armed,
and which terminal status, if any, was published to the UI. -/
structure PollState where
  active : Bool
  published : Option String
deriving Repr, DecidableEq

/-- Poll state right after placeOrder arms the interval. -/
def pollInit : PollState := { active := true, published := none }

/-- One tick of the poll interval of Cart.placeOrder
(src/frontend/src/pages/Products.jsx lines 145-163): a fetch error is
swallowed by the inner catch; a response without a status field returns
early; PAID and PAYMENT_FAILED publish the terminal state and clear the
interval; any other status leaves everything unchanged. -/
def cartPollTick (o : TickObs) (st : PollState) : PollState :=
  match o with
  | TickObs.fetchError => st
  | TickObs.noStatus => st
  | TickObs.status s =>
    if s = "PAID" then { active := false, published := some "PAID" }
    else if s = "PAYMENT_FAILED" then { active := false, published := some "PAYMENT_FAILED" }
    else st

/-- The poll loop: the interval fires along the observation sequence while
armed; each firing performs one status fetch.  Returns the final state and
the number of fetches performed. -/
def runPoll : List TickObs → PollState → PollState × Nat
  | [], st => (st, 0)
  | o :: rest, st =>
    if st.active then
      let r := runPoll rest (cartPollTick o st)
      (r.1, r.2 + 1)
    else (st, 0)

theorem runPoll_inactive (obs : List TickObs) (st : PollState) (h : st.active = false) :
    runPoll obs st = (st, 0) := by
  cases obs with
  | nil => rfl
  | cons o rest => simp [runPoll, h]

theorem cartPollTick_nonterminal (o : TickObs) (st : PollState)
    (h : isTerminalObs o = false) : cartPollTick o st = st := by
  cases o with
  | fetchError => rfl
  | noStatus => rfl
  | status s =>
    simp [isTerminalObs] at h
    simp [cartPollTick, h.1, h.2]

theorem runPoll_nonterminal_skip :
    ∀ (pre rest : List TickObs) (st : PollState), st.active = true →
      pre.all (fun x => !isTerminalObs x) = true →
      runPoll (pre ++ rest) st = ((runPoll rest st).1, (runPoll rest st).2 + pre.length)
  | [], rest, st, _, _ => by simp
  | o :: pre, rest, st, hact, hall => by
    simp only [List.all_cons, Bool.and_eq_true, Bool.not_eq_true'] at hall
    have ht := cartPollTick_nonterminal o st hall.1
    have ih := runPoll_nonterminal_skip pre rest st hact hall.2
    have hstep : runPoll (o :: (pre ++ rest)) st
        = ((runPoll (pre ++ rest) (cartPollTick o st)).1,
           (runPoll (pre ++ rest) (cartPollTick o st)).2 + 1) := by
      simp [runPoll, hact]
    rw [List.cons_append, hstep, ht, ih]
    simp [Nat.add_assoc]

theorem cartPollTick_terminal (o : TickObs) (hterm : isTerminalObs o = true) :
    cartPollTick o pollInit = { active := false, published := obsPublished o } := by
  rcases o with _ | _ | s
  · simp [isTerminalObs] at hterm
  · simp [isTerminalObs] at hterm
  · have hs : s = "PAID" ∨ s = "PAYMENT_FAILED" := by
      simpa [isTerminalObs] using hterm
    rcases hs with h | h <;> subst h <;> rfl

theorem runPoll_terminal_cons (o : TickObs) (post : List TickObs) (st : PollState)
    (hact : st.active = true) (hterm : isTerminalObs o = true) :
    runPoll (o :: post) st = (cartPollTick o st, 1) := by
  have hstop : (cartPollTick o st).active = false := by
    rcases o with _ | _ | s
    · simp [isTerminalObs] at hterm
    · simp [isTerminalObs] at hterm
    · have hs : s = "PAID" ∨ s = "PAYMENT_FAILED" := by
        simpa [isTerminalObs] using hterm
      rcases hs with h | h <;> subst h <;> rfl
  have h3 := runPoll_inactive post (cartPollTick o st) hstop
  simp [runPoll, hact, h3]

/-- C8: along every sequence of polled observations, the per-order poll
loop keeps fetching through fetch errors, missing statuses and the
non-terminal statuses (such as PENDING_PAYMENT and PENDING), none of which
stop it or publish anything, and stops fetching exactly at the first
observed status in the set PAID / PAYMENT_FAILED, publishing that status:
with no terminal observation every tick fetches and the state is
unchanged; with a first terminal observation after a terminal-free prefix
the fetch count is exactly the prefix length plus one and the interval is
cleared. -/
theorem C8_poll_termination (obs : List TickObs) :
    (obs.all (fun x => !isTerminalObs x) = true →
      runPoll obs pollInit = (pollInit, obs.length))
    ∧ (∀ pre o post, obs = pre ++ o :: post →
        pre.all (fun x => !isTerminalObs x) = true → isTerminalObs o = true →
        runPoll obs pollInit
          = ({ active := false, published := obsPublished o }, pre.length + 1)) := by
  constructor
  · intro hall
    have := runPoll_nonterminal_skip obs [] pollInit rfl hall
    simpa [runPoll] using this
  · rintro pre o post rfl hall hterm
    rw [runPoll_nonterminal_skip pre (o :: post) pollInit rfl hall,
      runPoll_terminal_cons o post pollInit rfl hterm]
    simp [cartPollTick_terminal o hterm, Nat.add_comm]

/-- C8 (witness): the specification scenario — two non-terminal ticks,
then PAID: exactly three fetches, the interval is cleared, and a later
observation is never fetched. -/
theorem C8_witness :
    ([TickObs.status "PENDING", TickObs.noStatus, TickObs.status "PAID",
        TickObs.status "PENDING"] : List TickObs)
      = [TickObs.status "PENDING", TickObs.noStatus]
        ++ TickObs.status "PAID" :: [TickObs.status "PENDING"]
    ∧ ([TickObs.status "PENDING", TickObs.noStatus] : List TickObs).all
        (fun x => !isTerminalObs x) = true
    ∧ isTerminalObs (TickObs.status "PAID") = true
    ∧ runPoll [TickObs.status "PENDING", TickObs.noStatus, TickObs.status "PAID",
        TickObs.status "PENDING"] pollInit
      = ({ active := false, published := some "PAID" }, 3) :=
  ⟨rfl, by decide, by decide,
    (C8_poll_termination [TickObs.status "PENDING", TickObs.noStatus, TickObs.status "PAID",
        TickObs.status "PENDING"]).2
      [TickObs.status "PENDING", TickObs.noStatus] (TickObs.status "PAID")
      [TickObs.status "PENDING"] rfl (by decide) (by decide)⟩

/-- Events that touch the poll handle of one Cart view instance.  place is
the handle replacement at the start of polling in placeOrder (lines
143-145: clear any previous handle, then arm a new interval); termTick is
a tick observing a terminal status (lines 149-159: clear the interval and
null the ref); unmount is the view teardown cleanup (lines 176-178: clear
the interval held by the ref). -/
inductive TrackerEvent where
  | place : TrackerEvent
  | termTick : TrackerEvent
  | unmount : TrackerEvent
deriving Repr, DecidableEq

/-- The timer bookkeeping of one Cart view instance: the ids of interval
handles armed and not yet cleared, the handle currently held by pollRef,
and a fresh-id counter. -/
structure TrackerState where
  live : List Nat
  pollRef : Option Nat
  nextId : Nat
deriving Repr, DecidableEq

/-- Effect of one event on the handle state, translated from the three
code sites named in TrackerEvent. -/
def trackerStep (st : TrackerState) : TrackerEvent → TrackerState
  | TrackerEvent.place =>
    let cleared := match st.pollRef with
      | some h => st.live.erase h
      | none => st.live
    { live := cleared ++ [st.nextId], pollRef := some st.nextId, nextId := st.nextId + 1 }
  | TrackerEvent.termTick =>
    match st.pollRef with
    | some h => { st with live := st.live.erase h, pollRef := none }
    | none => st
  | TrackerEvent.unmount =>
    match st.pollRef with
    | some h => { st with live := st.live.erase h }
    | none => st

/-- A freshly mounted Cart view: no armed handle, empty ref. -/
def trackerInit : TrackerState := { live := [], pollRef := none, nextId := 0 }

/-- The handle state after a sequence of events on one view instance. -/
def runTracker (evs : List TrackerEvent) : TrackerState :=
  evs.foldl trackerStep trackerInit

/-- Invariant tying the live handles to the ref: either nothing is armed,
or exactly the handle held by pollRef is armed. -/
def trackerInv (st : TrackerState) : Prop :=
  st.live = [] ∨ ∃ h, st.pollRef = some h ∧ st.live = [h]

theorem trackerInv_step (st : TrackerState) (e : TrackerEvent)
    (hinv : trackerInv st) : trackerInv (trackerStep st e) := by
  rcases e with _ | _ | _
  · rcases hinv with h | ⟨h0, hp, hl⟩
    · rcases hr : st.pollRef with _ | h1
      · exact Or.inr ⟨st.nextId, rfl, by simp [trackerStep, hr, h]⟩
      · exact Or.inr ⟨st.nextId, rfl, by simp [trackerStep, hr, h]⟩
    · exact Or.inr ⟨st.nextId, rfl, by simp [trackerStep, hp, hl]⟩
  · rcases hr : st.pollRef with _ | h1
    · simpa [trackerStep, hr] using hinv
    · rcases hinv with h | ⟨h0, hp, hl⟩
      · exact Or.inl (by simp [trackerStep, hr, h])
      · rw [hr] at hp
        injection hp with he
        subst he
        exact Or.inl (by simp [trackerStep, hr, hl])
  · rcases hr : st.pollRef with _ | h1
    · simpa [trackerStep, hr] using hinv
    · rcases hinv with h | ⟨h0, hp, hl⟩
      · exact Or.inl (by simp [trackerStep, hr, h])
      · rw [hr] at hp
        injection hp with he
        subst he
        exact Or.inl (by simp [trackerStep, hr, hl])

theorem trackerInv_run (evs : List TrackerEvent) : trackerInv (runTracker evs) := by
  have main : ∀ (l : List TrackerEvent) (st : TrackerState), trackerInv st →
      trackerInv (l.foldl trackerStep st) := by
    intro l
    induction l with
    | nil => exact fun st h => h
    | cons e rest ih => exact fun st h => ih _ (trackerInv_step st e h)
  exact main evs trackerInit (Or.inl rfl)

/-- C9: within one Cart view instance, after any sequence of
poll-handle events at most one poll timer handle is live (starting a new
poll clears and replaces the previously held handle), and a teardown
event clears the live handle, leaving none. -/
theorem C9_single_live_handle (evs : List TrackerEvent) :
    ((runTracker evs).live).length ≤ 1
    ∧ (runTracker (evs ++ [TrackerEvent.unmount])).live = [] := by
  have hinv := trackerInv_run evs
  constructor
  · rcases hinv with h | ⟨h0, _, hl⟩
    · simp [h]
    · simp [hl]
  · rw [runTracker, List.foldl_append]
    show (trackerStep (runTracker evs) TrackerEvent.unmount).live = []
    rcases hr : (runTracker evs).pollRef with _ | h1
    · rcases hinv with h | ⟨h0, hp, hl⟩
      · simp [trackerStep, hr, h]
      · rw [hr] at hp
        cases hp
    · rcases hinv with h | ⟨h0, hp, hl⟩
      · simp [trackerStep, hr, h]
      · rw [hr] at hp
        injection hp with he
        subst he
        simp [trackerStep, hr, hl]

end WFP2
